import Mathlib

/-!
# Verification of the proc_qq event router and conversation layer

Shallow embedding of `src/proc_qq/src/client_handler.rs` and
`src/proc_qq/src/traits/message_trait.rs` of the `rust_proc_qq` repository.

Conventions of the embedding:
* Rust `i64` fields become `Int`, `u32` becomes `Nat`, `Vec<u8>` becomes
  `List Nat`, `std::time::Duration` becomes `Nat` (an abstract tick count).
* `anyhow::Result<bool>` (a handler's return) becomes `Except String Bool`,
  the error carrying the failure's debug rendering.
* `RQResult<T> = Result<T, RQError>` becomes `Except RQError T`.
* Async methods that talk to the protocol client become pure functions that
  return their result *paired with the list of client calls they attempted*,
  so that "never attempts a network call" is a statement about that list.
  The protocol client itself (`rs_qq::Client`) is an external collaborator;
  it is embedded as an oracle structure (`Client`) assigning a response to
  every call, which is exactly its boundary role in the source.
* Types owned by the external `rq_engine`/`rs_qq` crates whose internals the
  source never inspects (`MessageReceipt`, `GroupImage`, `FriendImage`,
  `FlashImage`, `GroupAudio`, `FriendAudio`, `Group`) are embedded as opaque
  tokens (one abstract `Nat` field).
-/

namespace ProcQQ

/-- Abstract duration (`std::time::Duration`). -/
abbrev Duration : Type := Nat

/-- Opaque token for `rq_engine::structs::MessageReceipt`. -/
structure MessageReceipt where
  token : Nat
deriving DecidableEq, Repr

/-- Opaque token for `rq_engine::msg::elem::GroupImage`. -/
structure GroupImage where
  token : Nat
deriving DecidableEq, Repr

/-- Opaque token for `rq_engine::msg::elem::FriendImage`. -/
structure FriendImage where
  token : Nat
deriving DecidableEq, Repr

/-- Opaque token for `rq_engine::msg::elem::FlashImage`. -/
structure FlashImage where
  token : Nat
deriving DecidableEq, Repr

/-- Opaque token for a group audio handle (`upload_group_audio`'s result). -/
structure GroupAudio where
  token : Nat
deriving DecidableEq, Repr

/-- Opaque token for a friend audio handle (`upload_friend_audio`'s result). -/
structure FriendAudio where
  token : Nat
deriving DecidableEq, Repr

/-- Opaque token for `rs_qq::structs::Group` (resolved group info). -/
structure Group where
  token : Nat
deriving DecidableEq, Repr

/-- Embedding of `rq_engine::RQError`; the source only ever constructs `RQError::Other`. -/
inductive RQError where
  | other (msg : String)
deriving DecidableEq, Repr

/-- Embedding of `rq_engine::msg::elem::Text`: a plain text element holding its content. -/
structure Text where
  content : String
deriving DecidableEq, Repr

/-- Embedding of `Text::new` (from `rq_engine`, used by `parse_text`). -/
def Text.new (s : String) : Text := ⟨s⟩

/-- Modelled from the spec: the element alphabet of `rq_engine`'s
`MessageChain` that the source puts into chains (`Text`, `FriendImage`,
`GroupImage`, `FlashImage`). `rq_engine` is an external collaborator whose
chain type the spec describes only at the boundary. -/
inductive MessageElem where
  | text (t : Text)
  | friendImage (i : FriendImage)
  | groupImage (i : GroupImage)
  | flashImage (i : FlashImage)
deriving DecidableEq, Repr

/-- Modelled from the spec: `rq_engine::msg::MessageChain`, an ordered list
of message elements. -/
structure MessageChain where
  elements : List MessageElem
deriving DecidableEq, Repr

/-- Modelled from the spec: textual rendering of one element, as used by
`MessageChain`'s `Display`: a text element renders as its content; an image
element renders as a fixed placeholder (its exact spelling is irrelevant to
every claim, which only ever renders text-only chains). -/
def MessageElem.render : MessageElem → String
  | .text t => t.content
  | .friendImage _ => "[FriendImage]"
  | .groupImage _ => "[GroupImage]"
  | .flashImage _ => "[FlashImage]"

/-- Modelled from the spec: `MessageChain`'s `to_string()`, the textual
rendering of the message body — the concatenation of its elements'
renderings. -/
def MessageChain.toText (c : MessageChain) : String :=
  c.elements.foldl (fun acc e => acc ++ e.render) ""

/-- Embedding of `MessageChain::new(elem)`: a chain holding the single given element. -/
def MessageChain.new (t : Text) : MessageChain := ⟨[.text t]⟩

/-- Embedding of `MessageChain::default()`: the empty chain. -/
def MessageChain.default : MessageChain := ⟨[]⟩

/-- Embedding of `chain.push(elem)` for a `FriendImage`. -/
def MessageChain.pushFriendImage (c : MessageChain) (i : FriendImage) : MessageChain :=
  ⟨c.elements ++ [.friendImage i]⟩

/-- Embedding of `chain.push(elem)` for a `GroupImage`. -/
def MessageChain.pushGroupImage (c : MessageChain) (i : GroupImage) : MessageChain :=
  ⟨c.elements ++ [.groupImage i]⟩

/-- Embedding of `chain.push(elem)` for a `FlashImage`. -/
def MessageChain.pushFlashImage (c : MessageChain) (i : FlashImage) : MessageChain :=
  ⟨c.elements ++ [.flashImage i]⟩

/-- Embedding of `MessageTarget` from `message_trait.rs`: where a message came from /
should go. `Group(group_code, uin)`, `Private(uin)`, `Temp(group_code, uin)`. -/
inductive MessageTarget where
  | group (groupCode : Int) (uin : Int)
  | priv (uin : Int)
  | temp (groupCode : Option Int) (uin : Int)
deriving DecidableEq, Repr

/-- Embedding of `UploadImage` from `message_trait.rs`: the result alternative of
`upload_image_to_source`. -/
inductive UploadImage where
  | friendImage (i : FriendImage)
  | groupImage (i : GroupImage)
deriving DecidableEq, Repr

/-- Embedding of `rq_engine::structs::GroupMessage` (the fields the source reads). -/
structure GroupMessage where
  group_code : Int
  from_uin : Int
  elements : MessageChain
deriving DecidableEq, Repr

/-- Embedding of `rq_engine::structs::FriendMessage` (the fields the source reads). -/
structure FriendMessage where
  from_uin : Int
  elements : MessageChain
deriving DecidableEq, Repr

/-- Embedding of `rq_engine::structs::TempMessage` (the fields the source reads). -/
structure TempMessage where
  group_code : Option Int
  from_uin : Int
  elements : MessageChain
deriving DecidableEq, Repr

/-- One outbound operation attempted on the protocol client — the boundary
calls listed in the source (`upload_group_image`, `upload_friend_image`,
`upload_group_audio`, `send_group_audio`, `upload_friend_audio`,
`send_friend_audio`, `send_message_to_target`, `must_find_group`,
`bot_uin`). -/
inductive ClientCall where
  | uploadGroupImage (groupCode : Int) (data : List Nat)
  | uploadFriendImage (uin : Int) (data : List Nat)
  | uploadGroupAudio (groupCode : Int) (data : List Nat) (codec : Nat)
  | sendGroupAudio (groupCode : Int) (audio : GroupAudio)
  | uploadFriendAudio (uin : Int) (data : List Nat) (duration : Duration)
  | sendFriendAudio (uin : Int) (audio : FriendAudio)
  | sendMessageToTarget (target : MessageTarget) (message : MessageChain)
  | mustFindGroup (groupCode : Int) (autoReload : Bool)
  | botUin
deriving DecidableEq, Repr

/-- The external `rs_qq::Client` at its boundary: an oracle assigning a
response to each outbound operation, plus the bot's own identity. -/
structure Client where
  uploadGroupImageR : Int → List Nat → Except RQError GroupImage
  uploadFriendImageR : Int → List Nat → Except RQError FriendImage
  uploadGroupAudioR : Int → List Nat → Nat → Except RQError GroupAudio
  sendGroupAudioR : Int → GroupAudio → Except RQError MessageReceipt
  uploadFriendAudioR : Int → List Nat → Duration → Except RQError FriendAudio
  sendFriendAudioR : Int → FriendAudio → Except RQError MessageReceipt
  sendMessageToTargetR : MessageTarget → MessageChain → Except RQError MessageReceipt
  mustFindGroupR : Int → Bool → Except RQError Group
  botUinR : Int

/-- An instrumented outcome of an operation that may talk to the client:
the operation's result together with the client calls it attempted. -/
structure Eff (α : Type) where
  result : Except RQError α
  calls : List ClientCall
deriving Repr

/-! ### Instrumented client operations

Each method of the external client records the call it performs and returns
the oracle's response. The `impl ClientTrait for rs_qq::Client` lives in a
repository file outside `src/` (`traits/client_trait.rs`); its operations
(`send_message_to_target`, `must_find_group`, `bot_uin`) are modelled from
the spec boundary (§6): each is one outbound operation on the client. -/

/-- Embedding of `client.upload_group_image(group_code, data)`. -/
def Client.uploadGroupImage (c : Client) (groupCode : Int) (data : List Nat) :
    Eff GroupImage :=
  ⟨c.uploadGroupImageR groupCode data, [.uploadGroupImage groupCode data]⟩

/-- Embedding of `client.upload_friend_image(uin, data)`. -/
def Client.uploadFriendImage (c : Client) (uin : Int) (data : List Nat) :
    Eff FriendImage :=
  ⟨c.uploadFriendImageR uin data, [.uploadFriendImage uin data]⟩

/-- Embedding of `client.upload_group_audio(group_code, data, codec)`. -/
def Client.uploadGroupAudio (c : Client) (groupCode : Int) (data : List Nat)
    (codec : Nat) : Eff GroupAudio :=
  ⟨c.uploadGroupAudioR groupCode data codec, [.uploadGroupAudio groupCode data codec]⟩

/-- Embedding of `client.send_group_audio(group_code, audio)`. -/
def Client.sendGroupAudio (c : Client) (groupCode : Int) (audio : GroupAudio) :
    Eff MessageReceipt :=
  ⟨c.sendGroupAudioR groupCode audio, [.sendGroupAudio groupCode audio]⟩

/-- Embedding of `client.upload_friend_audio(uin, data, duration)`. -/
def Client.uploadFriendAudio (c : Client) (uin : Int) (data : List Nat)
    (duration : Duration) : Eff FriendAudio :=
  ⟨c.uploadFriendAudioR uin data duration, [.uploadFriendAudio uin data duration]⟩

/-- Embedding of `client.send_friend_audio(uin, audio)`. -/
def Client.sendFriendAudio (c : Client) (uin : Int) (audio : FriendAudio) :
    Eff MessageReceipt :=
  ⟨c.sendFriendAudioR uin audio, [.sendFriendAudio uin audio]⟩

/-- Modelled from the spec: `client.send_message_to_target(source, message)`
(§6 "send-message-to-target(target, chain) → receipt"); the source argument
is consumed only through its `target()`. -/
def Client.sendMessageToTarget (c : Client) (target : MessageTarget)
    (message : MessageChain) : Eff MessageReceipt :=
  ⟨c.sendMessageToTargetR target message, [.sendMessageToTarget target message]⟩

/-- Modelled from the spec: `client.must_find_group(group_code, auto_reload)`
(§6 "resolve-group(group_id, allow_refresh) → group info"). -/
def Client.mustFindGroup (c : Client) (groupCode : Int) (autoReload : Bool) :
    Eff Group :=
  ⟨c.mustFindGroupR groupCode autoReload, [.mustFindGroup groupCode autoReload]⟩

/-- Modelled from the spec: `client.bot_uin()` (§6 "get-bot-identity() →
int64"); infallible, so the result is a plain `Int` with its call trace. -/
def Client.botUin (c : Client) : Int × List ClientCall :=
  (c.botUinR, [.botUin])

/-! ### Concrete message events (`rs_qq::client::event`)

Each event couples the protocol client with the decoded message payload —
the two fields the source reads (`self.client`, `self.message`). The type
`rs_qq` calls `PrivateMessageEvent` in `client_handler.rs` is the
friend-message event; `message_trait.rs` works with it under the name
`FriendMessageEvent`. -/

/-- Embedding of `rs_qq::client::event::GroupMessageEvent`. -/
structure GroupMessageEvent where
  client : Client
  message : GroupMessage

/-- Embedding of `rs_qq::client::event::FriendMessageEvent` (also imported as
`PrivateMessageEvent` in `client_handler.rs`). -/
structure FriendMessageEvent where
  client : Client
  message : FriendMessage

/-- Alias used by `client_handler.rs`. -/
abbrev PrivateMessageEvent := FriendMessageEvent

/-- Embedding of `rs_qq::client::event::TempMessageEvent`. -/
structure TempMessageEvent where
  client : Client
  message : TempMessage

/-! ### `MessageTargetTrait` and `MessageContentTrait` impls -/

/-- Embedding of `impl MessageContentTrait for MessageChain`: `self.to_string()`. -/
def MessageChain.message_content (c : MessageChain) : String :=
  c.toText

/-- Embedding of `impl MessageTargetTrait for GroupMessage`:
`MessageTarget::Group(self.group_code, self.from_uin)`. -/
def GroupMessage.target (m : GroupMessage) : MessageTarget :=
  .group m.group_code m.from_uin

/-- Embedding of `impl MessageContentTrait for GroupMessage`:
`self.elements.message_content()`. -/
def GroupMessage.message_content (m : GroupMessage) : String :=
  m.elements.message_content

/-- Embedding of `impl MessageTargetTrait for GroupMessageEvent`: `self.message.target()`. -/
def GroupMessageEvent.target (e : GroupMessageEvent) : MessageTarget :=
  e.message.target

/-- Embedding of `impl MessageContentTrait for GroupMessageEvent`:
`self.message.message_content()`. -/
def GroupMessageEvent.message_content (e : GroupMessageEvent) : String :=
  e.message.message_content

/-- Embedding of `impl MessageTargetTrait for FriendMessage`:
`MessageTarget::Private(self.from_uin)`. -/
def FriendMessage.target (m : FriendMessage) : MessageTarget :=
  .priv m.from_uin

/-- Embedding of `impl MessageContentTrait for FriendMessage`:
`self.elements.to_string()`. -/
def FriendMessage.message_content (m : FriendMessage) : String :=
  m.elements.toText

/-- Embedding of `impl MessageTargetTrait for FriendMessageEvent`: `self.message.target()`. -/
def FriendMessageEvent.target (e : FriendMessageEvent) : MessageTarget :=
  e.message.target

/-- Embedding of `impl MessageContentTrait for FriendMessageEvent`:
`self.message.message_content()`. -/
def FriendMessageEvent.message_content (e : FriendMessageEvent) : String :=
  e.message.message_content

/-- Embedding of `impl MessageTargetTrait for TempMessage`:
`MessageTarget::Temp(self.group_code, self.from_uin)`. -/
def TempMessage.target (m : TempMessage) : MessageTarget :=
  .temp m.group_code m.from_uin

/-- Embedding of `impl MessageContentTrait for TempMessage`: `self.elements.to_string()`. -/
def TempMessage.message_content (m : TempMessage) : String :=
  m.elements.toText

/-- Embedding of `impl MessageTargetTrait for TempMessageEvent`: `self.message.target()`. -/
def TempMessageEvent.target (e : TempMessageEvent) : MessageTarget :=
  e.message.target

/-- Embedding of `impl MessageContentTrait for TempMessageEvent`:
`self.message.message_content()`. -/
def TempMessageEvent.message_content (e : TempMessageEvent) : String :=
  e.message.message_content

/-! ### `ClientTrait` and `MessageSendToSourceTrait` impls -/

/-- Embedding of `ClientTrait for GroupMessageEvent`: `send_message_to_target` delegates
to `self.client`. -/
def GroupMessageEvent.send_message_to_target (e : GroupMessageEvent)
    (source : MessageTarget) (message : MessageChain) : Eff MessageReceipt :=
  e.client.sendMessageToTarget source message

/-- Embedding of `ClientTrait for GroupMessageEvent`: `must_find_group` delegates to
`self.client`. -/
def GroupMessageEvent.must_find_group (e : GroupMessageEvent)
    (groupCode : Int) (autoReload : Bool) : Eff Group :=
  e.client.mustFindGroup groupCode autoReload

/-- Embedding of `ClientTrait for GroupMessageEvent`: `bot_uin` delegates to `self.client`. -/
def GroupMessageEvent.bot_uin (e : GroupMessageEvent) : Int × List ClientCall :=
  e.client.botUin

/-- Embedding of `MessageSendToSourceTrait for GroupMessageEvent`:
`self.client.send_message_to_target(self, message)` — the source's own
`target()` resolves the destination. -/
def GroupMessageEvent.send_message_to_source (e : GroupMessageEvent)
    (message : MessageChain) : Eff MessageReceipt :=
  e.client.sendMessageToTarget e.target message

/-- Embedding of `MessageSendToSourceTrait for GroupMessageEvent`: wraps
`upload_group_image(self.message.group_code, data)` in
`UploadImage::GroupImage`. -/
def GroupMessageEvent.upload_image_to_source (e : GroupMessageEvent)
    (data : List Nat) : Eff UploadImage :=
  let r := e.client.uploadGroupImage e.message.group_code data
  ⟨r.result.map UploadImage.groupImage, r.calls⟩

/-- Embedding of `MessageSendToSourceTrait for GroupMessageEvent`:
`upload_group_audio(self.message.group_code, data, codec)` then
`send_group_audio(self.message.group_code, audio)`; the caller's
`_audio_duration` is ignored. -/
def GroupMessageEvent.send_audio_to_source (e : GroupMessageEvent)
    (data : List Nat) (codec : Nat) (_audio_duration : Duration) :
    Eff MessageReceipt :=
  let up := e.client.uploadGroupAudio e.message.group_code data codec
  match up.result with
  | .error err => ⟨.error err, up.calls⟩
  | .ok audio =>
    let snd := e.client.sendGroupAudio e.message.group_code audio
    ⟨snd.result, up.calls ++ snd.calls⟩

/-- Embedding of `ClientTrait for FriendMessageEvent`: `send_message_to_target` delegates
to `self.client`. -/
def FriendMessageEvent.send_message_to_target (e : FriendMessageEvent)
    (source : MessageTarget) (message : MessageChain) : Eff MessageReceipt :=
  e.client.sendMessageToTarget source message

/-- Embedding of `ClientTrait for FriendMessageEvent`: `must_find_group` delegates to
`self.client`. -/
def FriendMessageEvent.must_find_group (e : FriendMessageEvent)
    (groupCode : Int) (autoReload : Bool) : Eff Group :=
  e.client.mustFindGroup groupCode autoReload

/-- Embedding of `ClientTrait for FriendMessageEvent`: `bot_uin` delegates to `self.client`. -/
def FriendMessageEvent.bot_uin (e : FriendMessageEvent) : Int × List ClientCall :=
  e.client.botUin

/-- Embedding of `MessageSendToSourceTrait for FriendMessageEvent`:
`self.client.send_message_to_target(self, message)`. -/
def FriendMessageEvent.send_message_to_source (e : FriendMessageEvent)
    (message : MessageChain) : Eff MessageReceipt :=
  e.client.sendMessageToTarget e.target message

/-- Embedding of `MessageSendToSourceTrait for FriendMessageEvent`: wraps
`upload_friend_image(self.message.from_uin, data)` in
`UploadImage::FriendImage`. -/
def FriendMessageEvent.upload_image_to_source (e : FriendMessageEvent)
    (data : List Nat) : Eff UploadImage :=
  let r := e.client.uploadFriendImage e.message.from_uin data
  ⟨r.result.map UploadImage.friendImage, r.calls⟩

/-- Embedding of `MessageSendToSourceTrait for FriendMessageEvent`:
`upload_friend_audio(self.message.from_uin, data, audio_duration)` then
`send_friend_audio(self.message.from_uin, audio)`; the caller's `_codec` is
ignored. -/
def FriendMessageEvent.send_audio_to_source (e : FriendMessageEvent)
    (data : List Nat) (_codec : Nat) (audio_duration : Duration) :
    Eff MessageReceipt :=
  let up := e.client.uploadFriendAudio e.message.from_uin data audio_duration
  match up.result with
  | .error err => ⟨.error err, up.calls⟩
  | .ok audio =>
    let snd := e.client.sendFriendAudio e.message.from_uin audio
    ⟨snd.result, up.calls ++ snd.calls⟩

/-- Embedding of `ClientTrait for TempMessageEvent`: `send_message_to_target` delegates
to `self.client`. -/
def TempMessageEvent.send_message_to_target (e : TempMessageEvent)
    (source : MessageTarget) (message : MessageChain) : Eff MessageReceipt :=
  e.client.sendMessageToTarget source message

/-- Embedding of `ClientTrait for TempMessageEvent`: `must_find_group` delegates to
`self.client`. -/
def TempMessageEvent.must_find_group (e : TempMessageEvent)
    (groupCode : Int) (autoReload : Bool) : Eff Group :=
  e.client.mustFindGroup groupCode autoReload

/-- Embedding of `ClientTrait for TempMessageEvent`: `bot_uin` delegates to `self.client`. -/
def TempMessageEvent.bot_uin (e : TempMessageEvent) : Int × List ClientCall :=
  e.client.botUin

/-- Embedding of `MessageSendToSourceTrait for TempMessageEvent`:
`self.client.send_message_to_target(self, message)`. -/
def TempMessageEvent.send_message_to_source (e : TempMessageEvent)
    (message : MessageChain) : Eff MessageReceipt :=
  e.client.sendMessageToTarget e.target message

/-- Embedding of `MessageSendToSourceTrait for TempMessageEvent`:
`RQResult::Err(RQError::Other("tmp message not supported upload image"))` —
no client call. -/
def TempMessageEvent.upload_image_to_source (_e : TempMessageEvent)
    (_data : List Nat) : Eff UploadImage :=
  ⟨.error (.other "tmp message not supported upload image"), []⟩

/-- Embedding of `MessageSendToSourceTrait for TempMessageEvent`:
`RQResult::Err(RQError::Other("tmp message not supported upload audio"))` —
no client call. -/
def TempMessageEvent.send_audio_to_source (_e : TempMessageEvent)
    (_data : List Nat) (_codec : Nat) (_audio_duration : Duration) :
    Eff MessageReceipt :=
  ⟨.error (.other "tmp message not supported upload audio"), []⟩

/-! ### The `MessageEvent` union (`client_handler.rs`) and its impls -/

/-- Embedding of `MessageEvent` from `client_handler.rs`: the union of the three
message-shaped events (its private variant is matched as `FriendMessage` in
`message_trait.rs`). -/
inductive MessageEvent where
  | groupMessage (e : GroupMessageEvent)
  | privateMessage (e : FriendMessageEvent)
  | tempMessage (e : TempMessageEvent)

/-- Embedding of `MessageEvent::client()`: the wrapped event's client. -/
def MessageEvent.client : MessageEvent → Client
  | .groupMessage e => e.client
  | .privateMessage e => e.client
  | .tempMessage e => e.client

/-- Embedding of `impl MessageTargetTrait for MessageEvent`: forwards to the wrapped
event's `target()`. -/
def MessageEvent.target : MessageEvent → MessageTarget
  | .groupMessage e => e.target
  | .privateMessage e => e.target
  | .tempMessage e => e.target

/-- Embedding of `impl MessageContentTrait for MessageEvent`: forwards to the wrapped
event's `message_content()`. -/
def MessageEvent.message_content : MessageEvent → String
  | .groupMessage e => e.message_content
  | .privateMessage e => e.message_content
  | .tempMessage e => e.message_content

/-- Embedding of `ClientTrait for MessageEvent`:
`self.client().send_message_to_target(source, message)`. -/
def MessageEvent.send_message_to_target (me : MessageEvent)
    (source : MessageTarget) (message : MessageChain) : Eff MessageReceipt :=
  me.client.sendMessageToTarget source message

/-- Embedding of `ClientTrait for MessageEvent`:
`self.client().must_find_group(group_code, auto_reload)`. -/
def MessageEvent.must_find_group (me : MessageEvent) (groupCode : Int)
    (autoReload : Bool) : Eff Group :=
  me.client.mustFindGroup groupCode autoReload

/-- Embedding of `ClientTrait for MessageEvent`: `self.client().bot_uin()`. -/
def MessageEvent.bot_uin (me : MessageEvent) : Int × List ClientCall :=
  me.client.botUin

/-- Embedding of `MessageSendToSourceTrait for MessageEvent`: matches the wrapped kind
and forwards `send_message_to_source`. -/
def MessageEvent.send_message_to_source (me : MessageEvent)
    (message : MessageChain) : Eff MessageReceipt :=
  match me with
  | .groupMessage e => e.send_message_to_source message
  | .privateMessage e => e.send_message_to_source message
  | .tempMessage e => e.send_message_to_source message

/-- Embedding of `MessageSendToSourceTrait for MessageEvent`: matches the wrapped kind
and forwards `upload_image_to_source`. -/
def MessageEvent.upload_image_to_source (me : MessageEvent)
    (data : List Nat) : Eff UploadImage :=
  match me with
  | .groupMessage e => e.upload_image_to_source data
  | .privateMessage e => e.upload_image_to_source data
  | .tempMessage e => e.upload_image_to_source data

/-- Embedding of `MessageSendToSourceTrait for MessageEvent`: matches the wrapped kind
and forwards `send_audio_to_source`. -/
def MessageEvent.send_audio_to_source (me : MessageEvent) (data : List Nat)
    (codec : Nat) (audio_duration : Duration) : Eff MessageReceipt :=
  match me with
  | .groupMessage e => e.send_audio_to_source data codec audio_duration
  | .privateMessage e => e.send_audio_to_source data codec audio_duration
  | .tempMessage e => e.send_audio_to_source data codec audio_duration

/-! ### Text / chain conversion (`TextEleParseTrait`, `MessageChainParseTrait`) -/

/-- Embedding of `impl TextEleParseTrait for String` (and `&str`): `Text::new(self)`. -/
def parse_text (s : String) : Text :=
  Text.new s

/-- Embedding of `impl MessageChainParseTrait for String` (and `&str`):
`MessageChain::new(self.parse_text())`. -/
def parse_message_chain (s : String) : MessageChain :=
  MessageChain.new (parse_text s)

/-- Embedding of `impl MessageChainParseTrait for FriendImage`: push onto the default
chain. -/
def FriendImage.parse_message_chain (i : FriendImage) : MessageChain :=
  MessageChain.default.pushFriendImage i

/-- Embedding of `impl MessageChainParseTrait for GroupImage`: push onto the default
chain. -/
def GroupImage.parse_message_chain (i : GroupImage) : MessageChain :=
  MessageChain.default.pushGroupImage i

/-- Embedding of `impl MessageChainParseTrait for FlashImage`: push onto the default
chain. -/
def FlashImage.parse_message_chain (i : FlashImage) : MessageChain :=
  MessageChain.default.pushFlashImage i

/-- Embedding of `impl MessageChainParseTrait for UploadImage`: forwards to the wrapped
image. -/
def UploadImage.parse_message_chain : UploadImage → MessageChain
  | .friendImage i => i.parse_message_chain
  | .groupImage i => i.parse_message_chain

/-! ### Router data model (`client_handler.rs`)

The ten non-message event payloads come from the external `rs_qq` crate and
are never inspected by the router (only forwarded to handler closures), so
they are embedded as opaque tokens. -/

/-- Opaque `rs_qq::client::event::GroupRequestEvent`. -/
structure GroupRequestEvent where
  token : Nat

/-- Opaque `rs_qq::client::event::FriendRequestEvent`. -/
structure FriendRequestEvent where
  token : Nat

/-- Opaque `rs_qq::client::event::NewFriendEvent`. -/
structure NewFriendEvent where
  token : Nat

/-- Opaque `rs_qq::client::event::FriendPokeEvent`. -/
structure FriendPokeEvent where
  token : Nat

/-- Opaque `rs_qq::client::event::DeleteFriendEvent`. -/
structure DeleteFriendEvent where
  token : Nat

/-- Opaque `rs_qq::client::event::GroupMuteEvent`. -/
structure GroupMuteEvent where
  token : Nat

/-- Opaque `rs_qq::client::event::GroupLeaveEvent`. -/
structure GroupLeaveEvent where
  token : Nat

/-- Opaque `rs_qq::client::event::GroupNameUpdateEvent`. -/
structure GroupNameUpdateEvent where
  token : Nat

/-- Opaque `rs_qq::client::event::GroupMessageRecallEvent`. -/
structure GroupMessageRecallEvent where
  token : Nat

/-- Opaque `rs_qq::client::event::FriendMessageRecallEvent`. -/
structure FriendMessageRecallEvent where
  token : Nat

/-- A handler's processing closure returns `anyhow::Result<bool>`:
`Except String Bool`, the error carrying the failure's rendering. -/
abbrev ProcResult := Except String Bool

deriving instance DecidableEq for Except

/-- Embedding of `ModuleEventProcess` from `client_handler.rs`: a handler's capability, a
tagged union binding the handler to exactly one event kind (or `Message`,
the AnyMessage capability), holding its processing closure. -/
inductive ModuleEventProcess where
  | groupMessage (p : GroupMessageEvent → ProcResult)
  | privateMessage (p : PrivateMessageEvent → ProcResult)
  | tempMessage (p : TempMessageEvent → ProcResult)
  | groupRequest (p : GroupRequestEvent → ProcResult)
  | friendRequest (p : FriendRequestEvent → ProcResult)
  | newFriend (p : NewFriendEvent → ProcResult)
  | friendPoke (p : FriendPokeEvent → ProcResult)
  | deleteFriend (p : DeleteFriendEvent → ProcResult)
  | groupMute (p : GroupMuteEvent → ProcResult)
  | groupLeave (p : GroupLeaveEvent → ProcResult)
  | groupNameUpdate (p : GroupNameUpdateEvent → ProcResult)
  | groupMessageRecall (p : GroupMessageRecallEvent → ProcResult)
  | friendMessageRecall (p : FriendMessageRecallEvent → ProcResult)
  | message (p : MessageEvent → ProcResult)

/-- Embedding of `ModuleEventHandler` from `client_handler.rs`. -/
structure ModuleEventHandler where
  name : String
  process : ModuleEventProcess

/-- Embedding of `Module` from `client_handler.rs`: id, display name, ordered handlers. -/
structure Module where
  id : String
  name : String
  handles : List ModuleEventHandler

/-- Embedding of `ClientHandler` from `client_handler.rs`: the ordered module registry. -/
structure ClientHandler where
  modules : List Module

/-- Embedding of `MapResult` from `client_handler.rs` (owning copies of the borrowed
module id / handler name). -/
inductive MapResult where
  | none
  | process (moduleId : String) (handlerName : String)
  | exception (moduleId : String) (handlerName : String)
deriving DecidableEq, Repr

/-- One record emitted to the `tracing` logging collaborator: its target
and its formatted message. -/
structure LogRecord where
  target : String
  message : String
deriving DecidableEq, Repr

/-- The record the `Err` branch of `map_handlers!` emits:
`tracing::error!(target = "proc_qq", " 出现错误 : {:?}", err)` — only the
error itself is formatted into the message. -/
def errorLog (err : String) : LogRecord :=
  ⟨"proc_qq", " 出现错误 : " ++ err⟩

/-- Everything observable about one dispatch: the `MapResult` the
`map_handlers!` macro produces (the source discards it with `let _ =`), the
handlers invoked, in order, as (module id, handler name), and the error-log
records emitted. -/
structure DispatchOut where
  result : MapResult
  invoked : List (String × String)
  logs : List LogRecord
deriving Repr

/-- A selector: given a handler's capability, `some r` when one of the
match arms the `map_handlers!` invocation generates fires (invoking the
closure on this dispatch's event), `none` for the `_ => ()` arm. -/
abbrev Sel := ModuleEventProcess → Option ProcResult

/-- The inner loop of `map_handlers!` over one module's handlers: a handler
whose capability matches none of the generated arms is skipped; `Ok(false)`
leaves the result `None` and continues; `Ok(true)` sets
`Process(m.id, h.name)` and breaks; `Err` logs the error, sets
`Exception(m.id, h.name)` and breaks. -/
def walkHandlers (sel : Sel) (moduleId : String) :
    List ModuleEventHandler → DispatchOut
  | [] => ⟨.none, [], []⟩
  | h :: rest =>
    match sel h.process with
    | Option.none => walkHandlers sel moduleId rest
    | some (.ok false) =>
      let o := walkHandlers sel moduleId rest
      ⟨o.result, (moduleId, h.name) :: o.invoked, o.logs⟩
    | some (.ok true) => ⟨.process moduleId h.name, [(moduleId, h.name)], []⟩
    | some (.error err) =>
      ⟨.exception moduleId h.name, [(moduleId, h.name)], [errorLog err]⟩

/-- The outer loop of `map_handlers!` over the modules: a module whose walk
left the result `None` lets the walk continue; any other result breaks. -/
def map_handlers (sel : Sel) : List Module → DispatchOut
  | [] => ⟨.none, [], []⟩
  | m :: rest =>
    let o := walkHandlers sel m.id m.handles
    match o.result with
    | .none =>
      let o2 := map_handlers sel rest
      ⟨o2.result, o.invoked ++ o2.invoked, o.logs ++ o2.logs⟩
    | r => ⟨r, o.invoked, o.logs⟩

/-- The arms `map_handlers!` generates for a `QEvent::GroupMessage`: the
concrete `GroupMessage` capability receives the event, the `Message`
(AnyMessage) capability receives the union view `me`. -/
def selGroupMessage (ev : GroupMessageEvent) (me : MessageEvent) : Sel
  | .groupMessage p => some (p ev)
  | .message p => some (p me)
  | _ => Option.none

/-- The arms for `QEvent::PrivateMessage`: concrete capability plus
`Message`. -/
def selPrivateMessage (ev : PrivateMessageEvent) (me : MessageEvent) : Sel
  | .privateMessage p => some (p ev)
  | .message p => some (p me)
  | _ => Option.none

/-- The arms for `QEvent::TempMessage`: concrete capability plus
`Message`. -/
def selTempMessage (ev : TempMessageEvent) (me : MessageEvent) : Sel
  | .tempMessage p => some (p ev)
  | .message p => some (p me)
  | _ => Option.none

/-- The single arm for `QEvent::GroupRequest`. -/
def selGroupRequest (ev : GroupRequestEvent) : Sel
  | .groupRequest p => some (p ev)
  | _ => Option.none

/-- The single arm for `QEvent::FriendRequest`. -/
def selFriendRequest (ev : FriendRequestEvent) : Sel
  | .friendRequest p => some (p ev)
  | _ => Option.none

/-- The single arm for `QEvent::NewFriend`. -/
def selNewFriend (ev : NewFriendEvent) : Sel
  | .newFriend p => some (p ev)
  | _ => Option.none

/-- The single arm for `QEvent::FriendPoke`. -/
def selFriendPoke (ev : FriendPokeEvent) : Sel
  | .friendPoke p => some (p ev)
  | _ => Option.none

/-- The single arm for `QEvent::DeleteFriend`. -/
def selDeleteFriend (ev : DeleteFriendEvent) : Sel
  | .deleteFriend p => some (p ev)
  | _ => Option.none

/-- The single arm for `QEvent::GroupMute`. -/
def selGroupMute (ev : GroupMuteEvent) : Sel
  | .groupMute p => some (p ev)
  | _ => Option.none

/-- The single arm for `QEvent::GroupLeave`. -/
def selGroupLeave (ev : GroupLeaveEvent) : Sel
  | .groupLeave p => some (p ev)
  | _ => Option.none

/-- The single arm for `QEvent::GroupNameUpdate`. -/
def selGroupNameUpdate (ev : GroupNameUpdateEvent) : Sel
  | .groupNameUpdate p => some (p ev)
  | _ => Option.none

/-- The single arm for `QEvent::GroupMessageRecall`. -/
def selGroupMessageRecall (ev : GroupMessageRecallEvent) : Sel
  | .groupMessageRecall p => some (p ev)
  | _ => Option.none

/-- The single arm for `QEvent::FriendMessageRecall`. -/
def selFriendMessageRecall (ev : FriendMessageRecallEvent) : Sel
  | .friendMessageRecall p => some (p ev)
  | _ => Option.none

/-- Embedding of `rs_qq::handler::QEvent`: the thirteen kinds the router recognizes plus
`unrecognized`, which stands for every other `QEvent` variant of the
external crate (the ones the `_ =>` arm of `Handler::handle` catches). -/
inductive QEvent where
  | groupMessage (e : GroupMessageEvent)
  | privateMessage (e : PrivateMessageEvent)
  | tempMessage (e : TempMessageEvent)
  | groupRequest (e : GroupRequestEvent)
  | friendRequest (e : FriendRequestEvent)
  | newFriend (e : NewFriendEvent)
  | friendPoke (e : FriendPokeEvent)
  | deleteFriend (e : DeleteFriendEvent)
  | groupMute (e : GroupMuteEvent)
  | groupLeave (e : GroupLeaveEvent)
  | groupNameUpdate (e : GroupNameUpdateEvent)
  | groupMessageRecall (e : GroupMessageRecallEvent)
  | friendMessageRecall (e : FriendMessageRecallEvent)
  | unrecognized (desc : String)

/-- Embedding of `impl Handler for ClientHandler`'s `handle`: matches the event kind,
wraps message-shaped events in the `MessageEvent` union, and runs
`map_handlers!` with the kind's arms; the `_ =>` arm only logs at debug
level and invokes nothing. `handle` takes `&self`; the returned
`ClientHandler` makes the dispatch borrowing the registry read-only
explicit as state passing. -/
def ClientHandler.handle (self : ClientHandler) : QEvent → DispatchOut × ClientHandler
  | .groupMessage event =>
    let me := MessageEvent.groupMessage event
    (map_handlers (selGroupMessage event me) self.modules, self)
  | .privateMessage event =>
    let me := MessageEvent.privateMessage event
    (map_handlers (selPrivateMessage event me) self.modules, self)
  | .tempMessage event =>
    let me := MessageEvent.tempMessage event
    (map_handlers (selTempMessage event me) self.modules, self)
  | .groupRequest event => (map_handlers (selGroupRequest event) self.modules, self)
  | .friendRequest event => (map_handlers (selFriendRequest event) self.modules, self)
  | .newFriend event => (map_handlers (selNewFriend event) self.modules, self)
  | .friendPoke event => (map_handlers (selFriendPoke event) self.modules, self)
  | .deleteFriend event => (map_handlers (selDeleteFriend event) self.modules, self)
  | .groupMute event => (map_handlers (selGroupMute event) self.modules, self)
  | .groupLeave event => (map_handlers (selGroupLeave event) self.modules, self)
  | .groupNameUpdate event => (map_handlers (selGroupNameUpdate event) self.modules, self)
  | .groupMessageRecall event =>
    (map_handlers (selGroupMessageRecall event) self.modules, self)
  | .friendMessageRecall event =>
    (map_handlers (selFriendMessageRecall event) self.modules, self)
  | .unrecognized _ => (⟨.none, [], []⟩, self)

/-- The arms a dispatched event generates, as a selector (the `_ =>`
fallback of `handle` offers the event to no capability). -/
def QEvent.sel : QEvent → Sel
  | .groupMessage e => selGroupMessage e (.groupMessage e)
  | .privateMessage e => selPrivateMessage e (.privateMessage e)
  | .tempMessage e => selTempMessage e (.tempMessage e)
  | .groupRequest e => selGroupRequest e
  | .friendRequest e => selFriendRequest e
  | .newFriend e => selNewFriend e
  | .friendPoke e => selFriendPoke e
  | .deleteFriend e => selDeleteFriend e
  | .groupMute e => selGroupMute e
  | .groupLeave e => selGroupLeave e
  | .groupNameUpdate e => selGroupNameUpdate e
  | .groupMessageRecall e => selGroupMessageRecall e
  | .friendMessageRecall e => selFriendMessageRecall e
  | .unrecognized _ => fun _ => Option.none

/-! ### Specification-side view of the walk

The combined offer list of a dispatch: every handler the event's arms fire
on, in module registration order and handler registration order within each
module, with the closure's result. The walk's observables are then the stop
functions over that list, which is the spec's "single combined
registration-order walk". -/

/-- All handlers the selector offers the event to, in registration order,
with module id, handler name and the closure's result. -/
def offeredResults (sel : Sel) (modules : List Module) :
    List (String × String × ProcResult) :=
  (modules.map fun m =>
    m.handles.filterMap fun h => (sel h.process).map fun r => (m.id, h.name, r)).flatten

/-- Invoked handlers of a walk along an offer list: every decline up to and
including the first handled-or-errored offer. -/
def stopTrace : List (String × String × ProcResult) → List (String × String)
  | [] => []
  | (moduleId, handlerName, Except.ok false) :: rest =>
    (moduleId, handlerName) :: stopTrace rest
  | (moduleId, handlerName, Except.ok true) :: _ => [(moduleId, handlerName)]
  | (moduleId, handlerName, Except.error _) :: _ => [(moduleId, handlerName)]

/-- Outcome of a walk along an offer list: the first non-decline decides. -/
def stopResult : List (String × String × ProcResult) → MapResult
  | [] => .none
  | (_, _, Except.ok false) :: rest => stopResult rest
  | (moduleId, handlerName, Except.ok true) :: _ => .process moduleId handlerName
  | (moduleId, handlerName, Except.error _) :: _ => .exception moduleId handlerName

/-- Error logs of a walk along an offer list: one record when the first
non-decline is a failure. -/
def stopLogs : List (String × String × ProcResult) → List LogRecord
  | [] => []
  | (_, _, Except.ok false) :: rest => stopLogs rest
  | (_, _, Except.ok true) :: _ => []
  | (_, _, Except.error err) :: _ => [errorLog err]

/-- One module's contribution to the offer list. -/
def offeredInModule (sel : Sel) (moduleId : String)
    (hs : List ModuleEventHandler) : List (String × String × ProcResult) :=
  hs.filterMap fun h => (sel h.process).map fun r => (moduleId, h.name, r)

/-! ### Concrete fixtures used by the scenario parts of the claims -/

/-- A concrete protocol client whose oracle answers every call trivially. -/
def testClient : Client where
  uploadGroupImageR := fun _ _ => .ok ⟨0⟩
  uploadFriendImageR := fun _ _ => .ok ⟨0⟩
  uploadGroupAudioR := fun _ _ _ => .ok ⟨0⟩
  sendGroupAudioR := fun _ _ => .ok ⟨0⟩
  uploadFriendAudioR := fun _ _ _ => .ok ⟨0⟩
  sendFriendAudioR := fun _ _ => .ok ⟨0⟩
  sendMessageToTargetR := fun _ _ => .ok ⟨0⟩
  mustFindGroupR := fun _ _ => .ok ⟨0⟩
  botUinR := 0

/-- A group message event with `group_code = 100`, `from_uin = 200`
(spec scenarios A, B, C). -/
def groupEventA : GroupMessageEvent :=
  ⟨testClient, ⟨100, 200, parse_message_chain "hello"⟩⟩

/-- A temp message event with `group_code = None`, `from_uin = 300`
(spec scenario C). -/
def tempEventC : TempMessageEvent :=
  ⟨testClient, ⟨Option.none, 300, parse_message_chain "hi"⟩⟩

/-- A private message event with `from_uin = 400` (spec scenario D). -/
def privateEventD : PrivateMessageEvent :=
  ⟨testClient, ⟨400, parse_message_chain "ping"⟩⟩

/-- Scenario A registry: `[Module("m1","M1",[Handler("h1",GroupMessage →
declines)]), Module("m2","M2",[Handler("h2",AnyMessage → handles)])]`. -/
def scenarioARegistry : ClientHandler :=
  ⟨[⟨"m1", "M1", [⟨"h1", .groupMessage fun _ => .ok false⟩]⟩,
    ⟨"m2", "M2", [⟨"h2", .message fun _ => .ok true⟩]⟩]⟩

/-- Scenario B registry: `[Module("m1","M1",[Handler("h1",GroupMessage →
throws "boom")])]`. -/
def scenarioBRegistry : ClientHandler :=
  ⟨[⟨"m1", "M1", [⟨"h1", .groupMessage fun _ => .error "boom"⟩]⟩]⟩

/-- A registry like scenario B's but with different module id and handler
name, same failure. -/
def scenarioBRenamed : ClientHandler :=
  ⟨[⟨"mX", "MX", [⟨"hY", .groupMessage fun _ => .error "boom"⟩]⟩]⟩

/-- Registry for the short-circuit scenario of the spec (§8): M1 with a
declining and a handling handler, M2 with a handling handler. -/
def shortCircuitRegistry : ClientHandler :=
  ⟨[⟨"m1", "M1", [⟨"h11", .groupMessage fun _ => .ok false⟩,
                  ⟨"h12", .groupMessage fun _ => .ok true⟩]⟩,
    ⟨"m2", "M2", [⟨"h21", .groupMessage fun _ => .ok true⟩]⟩]⟩

/-- Scenario D registry: no module registers a handler matching
PrivateMessage or AnyMessage. -/
def scenarioDRegistry : ClientHandler :=
  ⟨[⟨"m1", "M1", [⟨"h1", .groupMessage fun _ => .ok true⟩,
                  ⟨"h2", .groupRequest fun _ => .ok true⟩]⟩]⟩

/-! ### Characterization of the walk by the offer list -/

theorem stopResult_append (l1 l2 : List (String × String × ProcResult)) :
    stopResult (l1 ++ l2) =
      if stopResult l1 = MapResult.none then stopResult l2 else stopResult l1 := by
  induction l1 with
  | nil => simp [stopResult]
  | cons x rest ih =>
    obtain ⟨mid, hn, r⟩ := x
    cases r with
    | ok b => cases b <;> simp [stopResult, ih]
    | error e => simp [stopResult]

theorem stopTrace_append (l1 l2 : List (String × String × ProcResult)) :
    stopTrace (l1 ++ l2) =
      if stopResult l1 = MapResult.none then stopTrace l1 ++ stopTrace l2
      else stopTrace l1 := by
  induction l1 with
  | nil => simp [stopTrace, stopResult]
  | cons x rest ih =>
    obtain ⟨mid, hn, r⟩ := x
    cases r with
    | ok b =>
      cases b with
      | false =>
        simp [stopTrace, stopResult, ih]
        split <;> simp
      | true => simp [stopTrace, stopResult]
    | error e => simp [stopTrace, stopResult]

theorem stopLogs_append (l1 l2 : List (String × String × ProcResult)) :
    stopLogs (l1 ++ l2) =
      if stopResult l1 = MapResult.none then stopLogs l1 ++ stopLogs l2
      else stopLogs l1 := by
  induction l1 with
  | nil => simp [stopLogs, stopResult]
  | cons x rest ih =>
    obtain ⟨mid, hn, r⟩ := x
    cases r with
    | ok b => cases b <;> simp [stopLogs, stopResult, ih]
    | error e => simp [stopLogs, stopResult]

theorem offeredResults_cons (sel : Sel) (m : Module) (rest : List Module) :
    offeredResults sel (m :: rest) =
      offeredInModule sel m.id m.handles ++ offeredResults sel rest := by
  simp [offeredResults, offeredInModule]

theorem walkHandlers_eq (sel : Sel) (moduleId : String)
    (hs : List ModuleEventHandler) :
    walkHandlers sel moduleId hs =
      ⟨stopResult (offeredInModule sel moduleId hs),
       stopTrace (offeredInModule sel moduleId hs),
       stopLogs (offeredInModule sel moduleId hs)⟩ := by
  induction hs with
  | nil => rfl
  | cons h rest ih =>
    cases hsel : sel h.process with
    | none =>
      simp [walkHandlers, offeredInModule, hsel, List.filterMap_cons] at ih ⊢
      exact ih
    | some r =>
      cases r with
      | ok b =>
        cases b <;>
          simp [walkHandlers, offeredInModule, hsel, List.filterMap_cons,
            stopResult, stopTrace, stopLogs, ih]
      | error err =>
        simp [walkHandlers, offeredInModule, hsel, List.filterMap_cons,
          stopResult, stopTrace, stopLogs]

theorem map_handlers_eq (sel : Sel) (modules : List Module) :
    map_handlers sel modules =
      ⟨stopResult (offeredResults sel modules),
       stopTrace (offeredResults sel modules),
       stopLogs (offeredResults sel modules)⟩ := by
  induction modules with
  | nil => rfl
  | cons m rest ih =>
    rw [offeredResults_cons, stopResult_append, stopTrace_append, stopLogs_append]
    simp only [map_handlers, walkHandlers_eq]
    cases hres : stopResult (offeredInModule sel m.id m.handles) with
    | none => simp [hres, ih]
    | process mid hn => simp [hres]
    | exception mid hn => simp [hres]

theorem offeredResults_none_sel (modules : List Module) :
    offeredResults (fun _ => Option.none) modules = [] := by
  induction modules with
  | nil => rfl
  | cons m rest ih =>
    rw [offeredResults_cons, ih, List.append_nil]
    simp [offeredInModule]

/-- The observable part of every dispatch is the stop view of its offer
list. -/
theorem handle_fst (self : ClientHandler) (e : QEvent) :
    (self.handle e).1 =
      ⟨stopResult (offeredResults e.sel self.modules),
       stopTrace (offeredResults e.sel self.modules),
       stopLogs (offeredResults e.sel self.modules)⟩ := by
  cases e <;>
    simp [ClientHandler.handle, QEvent.sel, map_handlers_eq,
      offeredResults_none_sel, stopResult, stopTrace, stopLogs]

/-- The dispatch method `handle` hands the registry back untouched (the
Rust method borrows `&self`). -/
theorem handle_snd (self : ClientHandler) (e : QEvent) :
    (self.handle e).2 = self := by
  cases e <;> rfl

/-- A walk along an offer list invokes nothing past a handled-or-errored
offer: if position `i` holds a non-decline, at most `i + 1` handlers are
invoked. -/
theorem stopTrace_length_le (l : List (String × String × ProcResult)) :
    ∀ (i : Nat) (mid hn : String) (r : ProcResult),
      l[i]? = some (mid, hn, r) → r ≠ Except.ok false →
      (stopTrace l).length ≤ i + 1 := by
  induction l with
  | nil => intro i mid hn r hget _; simp at hget
  | cons x rest ih =>
    intro i mid hn r hget hnd
    obtain ⟨m', h', r'⟩ := x
    cases r' with
    | ok b =>
      cases b with
      | false =>
        cases i with
        | zero =>
          simp at hget
          exact absurd hget.2.2.symm hnd
        | succ j =>
          simp only [List.getElem?_cons_succ] at hget
          have := ih j mid hn r hget hnd
          simp only [stopTrace, List.length_cons]
          omega
      | true => simp [stopTrace]
    | error e => simp [stopTrace]

/-- A walk whose offers all decline ends with result `None`. -/
theorem stopResult_none_of_decline (l : List (String × String × ProcResult))
    (h : ∀ x ∈ l, x.2.2 = Except.ok false) : stopResult l = .none := by
  induction l with
  | nil => rfl
  | cons x rest ih =>
    obtain ⟨m', h', r'⟩ := x
    have hx : r' = Except.ok false := h _ (List.mem_cons_self _ _)
    subst hx
    exact ih fun y hy => h y (List.mem_cons_of_mem _ hy)

/-- A walk whose first non-decline offer at position `i` is the failure of
`(mid, hn)`: the outcome is that handler's exception, exactly `i + 1`
handlers are invoked, and exactly its error record is logged. -/
theorem stop_first_error (l : List (String × String × ProcResult)) :
    ∀ (i : Nat) (mid hn err : String),
      l[i]? = some (mid, hn, Except.error err) →
      (∀ j x, j < i → l[j]? = some x → x.2.2 = Except.ok false) →
      stopResult l = .exception mid hn ∧ (stopTrace l).length = i + 1 ∧
        stopLogs l = [errorLog err] := by
  induction l with
  | nil => intro i mid hn err hget _; simp at hget
  | cons x rest ih =>
    intro i mid hn err hget hfirst
    cases i with
    | zero =>
      obtain ⟨m', h', r'⟩ := x
      simp at hget
      obtain ⟨h1, h2, h3⟩ := hget
      subst h1; subst h2; subst h3
      exact ⟨rfl, rfl, rfl⟩
    | succ j =>
      have hx : x.2.2 = Except.ok false :=
        hfirst 0 x (Nat.succ_pos j) (by simp)
      obtain ⟨m', h', r'⟩ := x
      simp only at hx
      subst hx
      simp only [List.getElem?_cons_succ] at hget
      have hrest := ih j mid hn err hget
        (fun k y hk hy => hfirst (k + 1) y (Nat.succ_lt_succ hk) (by simpa))
      refine ⟨hrest.1, ?_, hrest.2.2⟩
      simp only [stopTrace, List.length_cons, hrest.2.1]

/-! ### The claims -/

/-- C1: for every dispatched message-shaped event (GroupMessage,
PrivateMessage, TempMessage) the router offers the event both to its
concrete-kind handlers (with the concrete event) and to AnyMessage handlers
(with the union view) in one single combined walk: the dispatch outcome and
the invoked-handler trace are exactly the stop view of the combined offer
list, which lists the matching handlers of both capabilities in module
registration order and, within each module, handler registration order; in
particular, scenario A — registry `[m1/h1: GroupMessage declines, m2/h2:
AnyMessage handles]` — dispatches a GroupMessage to outcome
`Handled("m2","h2")`. -/
theorem dispatch_combined_walk :
    (∀ (ev : GroupMessageEvent) (me : MessageEvent)
        (p : GroupMessageEvent → ProcResult) (q : MessageEvent → ProcResult),
      selGroupMessage ev me (.groupMessage p) = some (p ev) ∧
      selGroupMessage ev me (.message q) = some (q me)) ∧
    (∀ (ev : PrivateMessageEvent) (me : MessageEvent)
        (p : PrivateMessageEvent → ProcResult) (q : MessageEvent → ProcResult),
      selPrivateMessage ev me (.privateMessage p) = some (p ev) ∧
      selPrivateMessage ev me (.message q) = some (q me)) ∧
    (∀ (ev : TempMessageEvent) (me : MessageEvent)
        (p : TempMessageEvent → ProcResult) (q : MessageEvent → ProcResult),
      selTempMessage ev me (.tempMessage p) = some (p ev) ∧
      selTempMessage ev me (.message q) = some (q me)) ∧
    (∀ (self : ClientHandler) (ev : GroupMessageEvent),
      (self.handle (.groupMessage ev)).1.result =
        stopResult (offeredResults
          (selGroupMessage ev (.groupMessage ev)) self.modules) ∧
      (self.handle (.groupMessage ev)).1.invoked =
        stopTrace (offeredResults
          (selGroupMessage ev (.groupMessage ev)) self.modules)) ∧
    (∀ (self : ClientHandler) (ev : PrivateMessageEvent),
      (self.handle (.privateMessage ev)).1.result =
        stopResult (offeredResults
          (selPrivateMessage ev (.privateMessage ev)) self.modules) ∧
      (self.handle (.privateMessage ev)).1.invoked =
        stopTrace (offeredResults
          (selPrivateMessage ev (.privateMessage ev)) self.modules)) ∧
    (∀ (self : ClientHandler) (ev : TempMessageEvent),
      (self.handle (.tempMessage ev)).1.result =
        stopResult (offeredResults
          (selTempMessage ev (.tempMessage ev)) self.modules) ∧
      (self.handle (.tempMessage ev)).1.invoked =
        stopTrace (offeredResults
          (selTempMessage ev (.tempMessage ev)) self.modules)) ∧
    (scenarioARegistry.handle (.groupMessage groupEventA)).1.result =
      .process "m2" "h2" := by
  refine ⟨fun _ _ _ _ => ⟨rfl, rfl⟩, fun _ _ _ _ => ⟨rfl, rfl⟩,
    fun _ _ _ _ => ⟨rfl, rfl⟩, ?_, ?_, ?_, rfl⟩ <;>
    intro self ev <;> rw [handle_fst] <;> exact ⟨rfl, rfl⟩

/-- C2: once any handler in the walk returns handled or fails — a
non-decline at position `i` of the event's combined offer list — no handler
past that position is invoked: the invoked trace has at most `i + 1`
entries. -/
theorem dispatch_short_circuit (self : ClientHandler) (e : QEvent) (i : Nat)
    (mid hn : String) (r : ProcResult)
    (hget : (offeredResults e.sel self.modules)[i]? = some (mid, hn, r))
    (hnd : r ≠ Except.ok false) :
    ((self.handle e).1.invoked).length ≤ i + 1 := by
  rw [handle_fst]
  exact stopTrace_length_le _ i mid hn r hget hnd

/-- Witness for C2: the spec's own instance — M1 = (declines, handles),
M2 = (handles); M1's second handler returns true at combined position 1, so
at most two handlers are invoked (M2's handler is not). -/
theorem dispatch_short_circuit_witness :
    (offeredResults (QEvent.groupMessage groupEventA).sel
        shortCircuitRegistry.modules)[1]? =
      some ("m1", "h12", Except.ok true) ∧
    ((shortCircuitRegistry.handle (.groupMessage groupEventA)).1.invoked).length ≤ 2 :=
  ⟨rfl, dispatch_short_circuit shortCircuitRegistry (.groupMessage groupEventA)
    1 "m1" "h12" (Except.ok true) rfl (by simp)⟩

/-- C3 (amended): when the first non-declining handler of the walk — at
position `i` of the combined offer list — fails, the walk stops there: the
outcome is `Errored(module_id, handler_name)`, exactly `i + 1` handlers
were invoked, the failure is logged as the single error record carrying the
error's rendering (the record does **not** carry the module id or handler
name), and the failure propagates no further: `handle` returns normally,
handing the registry back unchanged. -/
theorem dispatch_error_stops (self : ClientHandler) (e : QEvent) (i : Nat)
    (mid hn err : String)
    (hget : (offeredResults e.sel self.modules)[i]? =
      some (mid, hn, Except.error err))
    (hfirst : ∀ j x, j < i →
      (offeredResults e.sel self.modules)[j]? = some x →
      x.2.2 = Except.ok false) :
    (self.handle e).1.result = .exception mid hn ∧
    ((self.handle e).1.invoked).length = i + 1 ∧
    (self.handle e).1.logs = [errorLog err] ∧
    (self.handle e).2 = self := by
  have h := stop_first_error _ i mid hn err hget hfirst
  rw [handle_fst]
  exact ⟨h.1, h.2.1, h.2.2, handle_snd self e⟩

/-- Witness for C3: scenario B — registry `[m1/h1: GroupMessage throws
"boom"]`; dispatching a GroupMessage yields `Errored("m1","h1")`, one
invoked handler, the error-only log record, and an unchanged registry. -/
theorem dispatch_error_stops_witness :
    (offeredResults (QEvent.groupMessage groupEventA).sel
        scenarioBRegistry.modules)[0]? =
      some ("m1", "h1", Except.error "boom") ∧
    (scenarioBRegistry.handle (.groupMessage groupEventA)).1.result =
      .exception "m1" "h1" ∧
    ((scenarioBRegistry.handle (.groupMessage groupEventA)).1.invoked).length =
      0 + 1 ∧
    (scenarioBRegistry.handle (.groupMessage groupEventA)).1.logs =
      [errorLog "boom"] ∧
    (scenarioBRegistry.handle (.groupMessage groupEventA)).2 =
      scenarioBRegistry := by
  have h := dispatch_error_stops scenarioBRegistry (.groupMessage groupEventA)
    0 "m1" "h1" "boom" rfl (fun j x hj _ => absurd hj (Nat.not_lt_zero j))
  exact ⟨rfl, h.1, h.2.1, h.2.2.1, h.2.2.2⟩

/-- Counterexample to C3 as stated: the failure log does *not* carry enough
context to identify the module and handler. Two registries whose erroring
handlers have different module ids and handler names (`("m1","h1")` versus
`("mX","hY")`) emit *identical* log records for the same event, so the
module/handler identity is not recoverable from the log. -/
theorem error_log_not_identifying :
    (scenarioBRegistry.handle (.groupMessage groupEventA)).1.result =
      .exception "m1" "h1" ∧
    (scenarioBRenamed.handle (.groupMessage groupEventA)).1.result =
      .exception "mX" "hY" ∧
    (scenarioBRegistry.handle (.groupMessage groupEventA)).1.logs =
      (scenarioBRenamed.handle (.groupMessage groupEventA)).1.logs ∧
    ("m1", "h1") ≠ ("mX", "hY") :=
  ⟨rfl, rfl, rfl, by decide⟩

/-- C4: a walk that completes with every offered handler declining (in
particular, with no handler matching at all) yields outcome `None`. -/
theorem dispatch_none_when_all_decline (self : ClientHandler) (e : QEvent)
    (h : ∀ x ∈ offeredResults e.sel self.modules, x.2.2 = Except.ok false) :
    (self.handle e).1.result = MapResult.none := by
  rw [handle_fst]
  exact stopResult_none_of_decline _ h

/-- Witness for C4: scenario D — a registry with no PrivateMessage or
AnyMessage handler; dispatching a PrivateMessage yields outcome `None`
(its offer list is empty, so every offered handler vacuously declines). -/
theorem dispatch_none_when_all_decline_witness :
    (∀ x ∈ offeredResults (QEvent.privateMessage privateEventD).sel
        scenarioDRegistry.modules, x.2.2 = Except.ok false) ∧
    (scenarioDRegistry.handle (.privateMessage privateEventD)).1.result =
      MapResult.none :=
  ⟨by decide, dispatch_none_when_all_decline scenarioDRegistry
    (.privateMessage privateEventD) (by decide)⟩

/-- C5: on a Temp conversation, `upload_image_to_source` and
`send_audio_to_source` fail deterministically with the
operation-not-supported error for every input, and attempt no client
call. -/
theorem temp_operations_unsupported (e : TempMessageEvent) (data : List Nat)
    (codec : Nat) (dur : Duration) :
    e.upload_image_to_source data =
      ⟨.error (.other "tmp message not supported upload image"), []⟩ ∧
    e.send_audio_to_source data codec dur =
      ⟨.error (.other "tmp message not supported upload audio"), []⟩ :=
  ⟨rfl, rfl⟩

/-- C6: converting a string to a message chain and rendering that chain's
content back to text yields the original string. -/
theorem render_parse_chain_round_trip (s : String) :
    (parse_message_chain s).message_content = s :=
  rfl

/-- C7: `target()` maps each conversation kind to its `MessageTarget`:
group messages to `Group(group_code, from_uin)`, friend/private messages to
`Private(from_uin)`, temp messages to `Temp(group_code, from_uin)`, both at
the payload and the event level; in particular a GroupMessageEvent with
`group_code = 100`, `from_uin = 200` yields `Group(100, 200)` and a
TempMessageEvent with `group_code = None`, `from_uin = 300` yields
`Temp(None, 300)`. -/
theorem target_mappings :
    (∀ m : GroupMessage, m.target = .group m.group_code m.from_uin) ∧
    (∀ e : GroupMessageEvent,
      e.target = .group e.message.group_code e.message.from_uin) ∧
    (∀ m : FriendMessage, m.target = .priv m.from_uin) ∧
    (∀ e : FriendMessageEvent, e.target = .priv e.message.from_uin) ∧
    (∀ m : TempMessage, m.target = .temp m.group_code m.from_uin) ∧
    (∀ e : TempMessageEvent,
      e.target = .temp e.message.group_code e.message.from_uin) ∧
    groupEventA.target = .group 100 200 ∧
    tempEventC.target = .temp Option.none 300 :=
  ⟨fun _ => rfl, fun _ => rfl, fun _ => rfl, fun _ => rfl, fun _ => rfl,
    fun _ => rfl, rfl, rfl⟩

/-- C8: for a Group conversation `send_audio_to_source` is independent of
the caller-supplied duration; for a Private (friend) conversation it is
independent of the caller-supplied codec — both the result and the client
calls attempted are identical. -/
theorem audio_params_ignored :
    (∀ (e : GroupMessageEvent) (data : List Nat) (codec : Nat)
        (d1 d2 : Duration),
      e.send_audio_to_source data codec d1 =
        e.send_audio_to_source data codec d2) ∧
    (∀ (e : FriendMessageEvent) (data : List Nat) (c1 c2 : Nat)
        (dur : Duration),
      e.send_audio_to_source data c1 dur =
        e.send_audio_to_source data c2 dur) :=
  ⟨fun _ _ _ _ _ => rfl, fun _ _ _ _ _ => rfl⟩

/-- C9: the `MessageEvent` union is a pure delegate — for each wrapped
concrete event, `target`, `message_content`, `send_message_to_source`
(reply), `upload_image_to_source`, `send_audio_to_source`, `bot_uin` and
`must_find_group` return exactly what the wrapped event's operation
returns. -/
theorem message_event_delegates :
    (∀ e : GroupMessageEvent,
      (MessageEvent.groupMessage e).target = e.target ∧
      (MessageEvent.groupMessage e).message_content = e.message_content ∧
      (∀ m, (MessageEvent.groupMessage e).send_message_to_source m =
        e.send_message_to_source m) ∧
      (∀ data, (MessageEvent.groupMessage e).upload_image_to_source data =
        e.upload_image_to_source data) ∧
      (∀ data codec dur,
        (MessageEvent.groupMessage e).send_audio_to_source data codec dur =
          e.send_audio_to_source data codec dur) ∧
      (MessageEvent.groupMessage e).bot_uin = e.bot_uin ∧
      (∀ gc ar, (MessageEvent.groupMessage e).must_find_group gc ar =
        e.must_find_group gc ar)) ∧
    (∀ e : FriendMessageEvent,
      (MessageEvent.privateMessage e).target = e.target ∧
      (MessageEvent.privateMessage e).message_content = e.message_content ∧
      (∀ m, (MessageEvent.privateMessage e).send_message_to_source m =
        e.send_message_to_source m) ∧
      (∀ data, (MessageEvent.privateMessage e).upload_image_to_source data =
        e.upload_image_to_source data) ∧
      (∀ data codec dur,
        (MessageEvent.privateMessage e).send_audio_to_source data codec dur =
          e.send_audio_to_source data codec dur) ∧
      (MessageEvent.privateMessage e).bot_uin = e.bot_uin ∧
      (∀ gc ar, (MessageEvent.privateMessage e).must_find_group gc ar =
        e.must_find_group gc ar)) ∧
    (∀ e : TempMessageEvent,
      (MessageEvent.tempMessage e).target = e.target ∧
      (MessageEvent.tempMessage e).message_content = e.message_content ∧
      (∀ m, (MessageEvent.tempMessage e).send_message_to_source m =
        e.send_message_to_source m) ∧
      (∀ data, (MessageEvent.tempMessage e).upload_image_to_source data =
        e.upload_image_to_source data) ∧
      (∀ data codec dur,
        (MessageEvent.tempMessage e).send_audio_to_source data codec dur =
          e.send_audio_to_source data codec dur) ∧
      (MessageEvent.tempMessage e).bot_uin = e.bot_uin ∧
      (∀ gc ar, (MessageEvent.tempMessage e).must_find_group gc ar =
        e.must_find_group gc ar)) := by
  refine ⟨?_, ?_, ?_⟩ <;>
    exact fun e => ⟨rfl, rfl, fun _ => rfl, fun _ => rfl, fun _ _ _ => rfl,
      rfl, fun _ _ => rfl⟩

/-- C10: an inbound event outside the thirteen recognized kinds (the `_ =>`
arm of `handle`) invokes no handler, emits no error log, and returns
normally with the registry unchanged. -/
theorem unrecognized_event_inert (self : ClientHandler) (desc : String) :
    self.handle (.unrecognized desc) = (⟨.none, [], []⟩, self) :=
  rfl

end ProcQQ
